import Mathlib

/-!
Verification of the ChargedUP RC-car simulation core against its
natural-language specification.

The definitions below are a shallow embedding of the JavaScript source:
`RCCarSimulator` (vehicle physics tick), `BatteryCalculator`
(stoichiometric and commercial battery calculations, runtime estimate)
and `MotorSpeedEstimator` (approximate RPM model).  JavaScript numbers
are modelled as exact rationals and the JavaScript value `Infinity`
(used for `bestLapTime` and for the unbounded-runtime sentinel) is
modelled as `Option.none`.
-/

namespace ChargedUP

/-- `SimulationParameters` — the externally mutable inputs of
`RCCarSimulator` (`this.params` in the source). -/
structure SimParams where
  mass : ℚ
  wheelRadius : ℚ
  motorEfficiency : ℚ
  frictionCoeff : ℚ
  airResistance : ℚ
  maxTorque : ℚ
  batteryVoltage : ℚ
  batteryCurrent : ℚ
  batteryCapacity : ℚ
  internalR : ℚ
  throttle : ℚ
  deriving DecidableEq

/-- `SimulationState` — the fields of `this.state` mutated by the
integrator.  `bestLapTime = none` models the initial JavaScript value
`Infinity`. -/
structure SimState where
  position : ℚ
  velocity : ℚ
  acceleration : ℚ
  batteryCharge : ℚ
  lapCount : ℕ
  lapTime : ℚ
  bestLapTime : Option ℚ
  totalEnergy : ℚ
  isRunning : Bool
  deriving DecidableEq

/-- A simulator instance: state, parameters and the track length
(`this.track.length`, default 20 m). -/
structure Sim where
  state : SimState
  params : SimParams
  trackLength : ℚ
  deriving DecidableEq

/-- The parameter defaults set in the `RCCarSimulator` constructor. -/
def defaultParams : SimParams :=
  { mass := 1/2
    wheelRadius := 2/100
    motorEfficiency := 7/10
    frictionCoeff := 3/10
    airResistance := 5/100
    maxTorque := 1/10
    batteryVoltage := 6
    batteryCurrent := 1
    batteryCapacity := 2000
    internalR := 12/10
    throttle := 0 }

/-- The state defaults set in the `RCCarSimulator` constructor (and
restored by `reset`). -/
def initialState : SimState :=
  { position := 0
    velocity := 0
    acceleration := 0
    batteryCharge := 100
    lapCount := 0
    lapTime := 0
    bestLapTime := none
    totalEnergy := 0
    isRunning := false }

/-- The gravitational constant 9.81 used in `calculateFriction`. -/
def gravity : ℚ := 981/100

/-- `calculateMotorForce`: F = (maxTorque × throttle / wheelRadius) × efficiency. -/
def calculateMotorForce (p : SimParams) : ℚ :=
  let torque := p.maxTorque * p.throttle
  (torque / p.wheelRadius) * p.motorEfficiency

/-- `calculateFriction`: μ × m × g, applied negatively only while the
velocity is positive. -/
def calculateFriction (p : SimParams) (velocity : ℚ) : ℚ :=
  let normalForce := p.mass * gravity
  let friction := p.frictionCoeff * normalForce
  if velocity > 0 then -friction else 0

/-- `calculateAirResistance`: −k × v × |v|. -/
def calculateAirResistance (p : SimParams) (velocity : ℚ) : ℚ :=
  let airDrag := p.airResistance * velocity * |velocity|;
  -airDrag

/-- `calculateAcceleration`: net force over mass. -/
def calculateAcceleration (p : SimParams) (velocity : ℚ) : ℚ :=
  let netForce :=
    calculateMotorForce p + calculateFriction p velocity + calculateAirResistance p velocity
  netForce / p.mass

/-- The full battery capacity in Joules used by `updateBattery`:
V × (mAh × 3.6). -/
def fullCapacityJoules (p : SimParams) : ℚ :=
  p.batteryVoltage * (p.batteryCapacity * (36/10))

/-- `updateBattery`: while throttle > 0, accumulate energy at
P = V × I × throttle and recompute the charge percentage from the
accumulated energy, clamped at 0. -/
def updateBattery (p : SimParams) (s : SimState) (dt : ℚ) : SimState :=
  if p.throttle > 0 then
    let power := p.batteryVoltage * p.batteryCurrent * p.throttle
    let energyUsed := power * dt
    let totalEnergy := s.totalEnergy + energyUsed
    { s with
        totalEnergy := totalEnergy
        batteryCharge := max 0 (100 - totalEnergy / fullCapacityJoules p * 100) }
  else s

/-- The comparison `lapTime < bestLapTime` of the source, where
`bestLapTime` may be the JavaScript `Infinity` (`none`). -/
def ltInfinity (t : ℚ) (best : Option ℚ) : Bool :=
  match best with
  | none => true
  | some b => decide (t < b)

/-- The source condition `lapTime > 0 && lapTime < bestLapTime` guarding
the `bestLapTime` update on lap completion. -/
def lapQualifies (t : ℚ) (best : Option ℚ) : Bool :=
  decide (0 < t) && ltInfinity t best

/-- The parameters actually used by a tick: `updatePhysics` first writes
`this.params.throttle = 0` whenever `batteryCharge ≤ 0`. -/
def effParams (sim : Sim) : SimParams :=
  if sim.state.batteryCharge ≤ 0 then { sim.params with throttle := 0 } else sim.params

/-- The velocity after the integration step of a tick:
v ← max(0, v + a·dt). -/
def tickVelocity (sim : Sim) (dt : ℚ) : ℚ :=
  max 0 (sim.state.velocity + calculateAcceleration (effParams sim) sim.state.velocity * dt)

/-- The position after the integration step of a tick, before the
lap-boundary correction. -/
def tickRawPosition (sim : Sim) (dt : ℚ) : ℚ :=
  sim.state.position + tickVelocity sim dt * dt

/-- `updatePhysics(dt)` — one simulation tick: throttle forcing on
battery exhaustion, force balance, velocity and position integration,
lap-boundary correction and bookkeeping, lap-time accumulation, then
battery drain. -/
def updatePhysics (sim : Sim) (dt : ℚ) : Sim :=
  let p := effParams sim
  let s := sim.state
  let accel := calculateAcceleration p s.velocity
  let v := max 0 (s.velocity + accel * dt)
  let pos := s.position + v * dt
  let s1 : SimState :=
    if pos ≥ sim.trackLength then
      { s with
          acceleration := accel
          velocity := v
          position := pos - sim.trackLength
          lapCount := s.lapCount + 1
          bestLapTime :=
            if lapQualifies s.lapTime s.bestLapTime then some s.lapTime else s.bestLapTime
          lapTime := 0 }
    else
      { s with acceleration := accel, velocity := v, position := pos }
  let s2 : SimState := { s1 with lapTime := s1.lapTime + dt }
  { sim with state := updateBattery p s2 dt, params := p }

/-- A sequence of ticks with the given time deltas. -/
def runTicks (sim : Sim) (dts : List ℚ) : Sim :=
  dts.foldl updatePhysics sim

/-- The coupling between the charge percentage and the accumulated
energy that `updateBattery` establishes; it holds for the freshly
constructed (and reset) simulator state. -/
def ChargeInv (sim : Sim) : Prop :=
  sim.state.batteryCharge =
    max 0 (100 - sim.state.totalEnergy / fullCapacityJoules sim.params * 100)

instance (sim : Sim) : Decidable (ChargeInv sim) := by
  unfold ChargeInv; infer_instance

/-- A simulator whose battery is exhausted while a throttle of 1/2 is
still configured. -/
def c1Sim : Sim :=
  { state := { initialState with batteryCharge := 0 }
    params := { defaultParams with throttle := 1/2 }
    trackLength := 20 }

/-- The freshly constructed simulator with its default parameters. -/
def c2Sim : Sim :=
  { state := initialState, params := defaultParams, trackLength := 20 }

/-- A freshly constructed simulator configured with full throttle, a
very large motor torque and no resistive forces. -/
def c2BadSim : Sim :=
  { state := initialState
    params := { defaultParams with
                  throttle := 1, maxTorque := 100, frictionCoeff := 0, airResistance := 0 }
    trackLength := 20 }

/-- A coasting simulator 1 mm before the lap line, moving at 0.2 m/s,
with 5 s on the lap clock and no best lap yet. -/
def c3Sim : Sim :=
  { state := { initialState with position := 19999/1000, velocity := 1/5, lapTime := 5 }
    params := { defaultParams with frictionCoeff := 0, airResistance := 0 }
    trackLength := 20 }

/-- The freshly constructed simulator driven at full throttle. -/
def c5Sim : Sim :=
  { state := initialState, params := { defaultParams with throttle := 1 }, trackLength := 20 }

end ChargedUP

namespace ChargedUP

/-! ### Battery chemistry engine (`chemistry.js`, class `BatteryCalculator`) -/

/-- Faraday constant from `CHEMISTRY_CONSTANTS`. -/
def FARADAY : ℚ := 96485

/-- Molar mass of zinc from `CHEMISTRY_CONSTANTS` (65.38 g/mol). -/
def M_ZN : ℚ := 6538/100

/-- Molar mass of manganese dioxide from `CHEMISTRY_CONSTANTS` (86.936 g/mol). -/
def M_MNO2 : ℚ := 86936/1000

/-- The reagent identities of the Zn + 2MnO₂ reaction. -/
inductive Reagent where
  | Zn
  | MnO2
  deriving DecidableEq

/-- The result object of `calculateFromMass`. -/
structure MassResult where
  molesZn : ℚ
  molesMnO2 : ℚ
  limitingReagent : Reagent
  excessReagent : Reagent
  excessMoles : ℚ
  molesReaction : ℚ
  molesElectrons : ℚ
  chargeC : ℚ
  voltage : ℚ
  energyJ : ℚ
  energyWh : ℚ
  capacityMah : ℚ
  electronsPerRxn : ℚ
  deriving DecidableEq

/-- `calculateFromMass(znMass, mno2Mass, voltage, electronsPerRxn)` —
stoichiometric path: moles, limiting reagent by the 1:2 ratio
(`molesZn <= molesMnO2/2` selects Zn), electrons, charge, energy and
equivalent capacity. -/
def calculateFromMass (znMass mno2Mass : ℚ) (voltage : ℚ := 3/2)
    (electronsPerRxn : ℚ := 2) : MassResult :=
  let molesZn := znMass / M_ZN
  let molesMnO2 := mno2Mass / M_MNO2
  let znNeeded := molesMnO2 / 2
  let mno2Needed := molesZn * 2
  let branch :=
    if molesZn ≤ znNeeded then
      (Reagent.Zn, molesZn, molesMnO2 - mno2Needed, Reagent.MnO2)
    else
      (Reagent.MnO2, molesMnO2 / 2, molesZn - znNeeded, Reagent.Zn)
  let molesReaction := branch.2.1
  let molesElectrons := molesReaction * electronsPerRxn
  let chargeC := molesElectrons * FARADAY
  let energyJ := voltage * chargeC
  let energyWh := energyJ / 3600
  let capacityAh := chargeC / 3600
  let capacityMah := capacityAh * 1000
  { molesZn := molesZn
    molesMnO2 := molesMnO2
    limitingReagent := branch.1
    excessReagent := branch.2.2.2
    excessMoles := branch.2.2.1
    molesReaction := molesReaction
    molesElectrons := molesElectrons
    chargeC := chargeC
    voltage := voltage
    energyJ := energyJ
    energyWh := energyWh
    capacityMah := capacityMah
    electronsPerRxn := electronsPerRxn }

/-- The result object of `calculateFromCapacity`. -/
structure CapacityResult where
  cellCapacityMah : ℚ
  cellVoltage : ℚ
  cellCount : ℚ
  seriesCount : ℚ
  parallelCount : ℚ
  packVoltage : ℚ
  packCapacityMah : ℚ
  chargeC : ℚ
  energyJ : ℚ
  energyWh : ℚ
  deriving DecidableEq

/-- `calculateFromCapacity(capacityMah, voltage, cellCount, seriesCount,
parallelCount)` — commercial path: per-cell charge, pack configuration
and pack energy. -/
def calculateFromCapacity (capacityMah voltage : ℚ) (cellCount : ℚ := 1)
    (seriesCount : ℚ := 1) (parallelCount : ℚ := 1) : CapacityResult :=
  let capacityAh := capacityMah / 1000
  let chargeC := capacityAh * 3600
  let packVoltage := voltage * seriesCount
  let packCapacityMah := capacityMah * parallelCount
  let packChargeC := chargeC * parallelCount
  let energyJ := packVoltage * packChargeC
  let energyWh := energyJ / 3600
  { cellCapacityMah := capacityMah
    cellVoltage := voltage
    cellCount := cellCount
    seriesCount := seriesCount
    parallelCount := parallelCount
    packVoltage := packVoltage
    packCapacityMah := packCapacityMah
    chargeC := packChargeC
    energyJ := energyJ
    energyWh := energyWh }

/-- The `this.results` field of a `BatteryCalculator` instance: the
empty object set by the constructor, or the result object stored by the
last calculation. -/
inductive StoredResults where
  | empty
  | mass (r : MassResult)
  | commercial (r : CapacityResult)
  deriving DecidableEq

/-- The mutable instance state of a `BatteryCalculator` (its `results`
field; the `constants` field is immutable module data). -/
structure CalcState where
  results : StoredResults
  deriving DecidableEq

/-- The state of a freshly constructed `BatteryCalculator`. -/
def initCalcState : CalcState := { results := .empty }

/-- `calculateFromMass` as the method it is in the source: it returns
the fresh result object and stores it in `this.results`. -/
def calculateFromMassM (st : CalcState) (znMass mno2Mass voltage electronsPerRxn : ℚ) :
    MassResult × CalcState :=
  let r := calculateFromMass znMass mno2Mass voltage electronsPerRxn
  (r, { st with results := .mass r })

/-- `calculateFromCapacity` as the method it is in the source: it
returns the fresh result object and stores it in `this.results`. -/
def calculateFromCapacityM (st : CalcState)
    (capacityMah voltage cellCount seriesCount parallelCount : ℚ) :
    CapacityResult × CalcState :=
  let r := calculateFromCapacity capacityMah voltage cellCount seriesCount parallelCount
  (r, { st with results := .commercial r })

/-- The result object of `estimateRuntime`; `infinite` models the
`{hours: Infinity, minutes: Infinity}` sentinel. -/
inductive RuntimeResult where
  | infinite
  | finite (hours minutes capacityMah currentA : ℚ)
  deriving DecidableEq

/-- `estimateRuntime(capacityMah, currentA)`: an infinite-runtime
sentinel when `currentA ≤ 0`, otherwise `(capacityMah/1000)/currentA`
hours. -/
def estimateRuntime (capacityMah currentA : ℚ) : RuntimeResult :=
  if currentA ≤ 0 then .infinite
  else
    let capacityAh := capacityMah / 1000
    let hours := capacityAh / currentA
    .finite hours (hours * 60) capacityMah currentA

end ChargedUP

namespace ChargedUP

/-! ### Motor speed estimator (`physics.js`, class `MotorSpeedEstimator`) -/

/-- A motor preset from `MOTOR_PRESETS`; `noLoadRPM = none` models the
JavaScript `null` of the non-rotating demo-solenoid preset. -/
structure MotorPreset where
  armatureR : ℚ
  coilTurns : ℚ
  coilRadius : ℚ
  coilLength : ℚ
  ratedVoltage : ℚ
  noLoadRPM : Option ℚ
  deriving DecidableEq

/-- The `small-dc-motor` preset. -/
def smallDcMotor : MotorPreset :=
  { armatureR := 3, coilTurns := 50, coilRadius := 1/100, coilLength := 2/100
    ratedVoltage := 6, noLoadRPM := some 6000 }

/-- The `hobby-motor` preset. -/
def hobbyMotor : MotorPreset :=
  { armatureR := 1/2, coilTurns := 30, coilRadius := 18/1000, coilLength := 35/1000
    ratedVoltage := 72/10, noLoadRPM := some 15000 }

/-- The `demo-solenoid` preset (`noLoadRPM: null`). -/
def demoSolenoid : MotorPreset :=
  { armatureR := 2, coilTurns := 100, coilRadius := 15/1000, coilLength := 5/100
    ratedVoltage := 6, noLoadRPM := none }

/-- JavaScript `Math.round`: nearest integer with halves rounded toward
positive infinity. -/
def jsRound (x : ℚ) : ℤ := ⌊x + 1/2⌋

/-- The result object of `estimateSpeed`; `notMotor` models its
`{rpm: null}` return.  The numeric payload carries the rounded rpm and
the values behind the formatted `speedPercent`, `effectiveVoltage` and
`backEMFvoltage` fields. -/
inductive SpeedResult where
  | notMotor
  | speed (rpm : ℤ) (speedPercent effectiveVoltage backEMFvoltage : ℚ)
  deriving DecidableEq

/-- `estimateSpeed(current, supplyVoltage)` of `MotorSpeedEstimator`.
The source guard `if (!noLoadRPM)` is falsy both for `null` and for a
zero no-load RPM. -/
def estimateSpeed (preset : MotorPreset) (current supplyVoltage : ℚ) : SpeedResult :=
  match preset.noLoadRPM with
  | none => .notMotor
  | some noLoadRPM =>
    if noLoadRPM = 0 then .notMotor
    else
      let ratedVoltage := preset.ratedVoltage
      let armatureR := preset.armatureR
      let voltageRatio := min (supplyVoltage / ratedVoltage) (3/2)
      let backEMFvoltage := current * armatureR
      let effectiveVoltage := supplyVoltage - backEMFvoltage
      let speedRatio := max 0 (effectiveVoltage / ratedVoltage)
      let rpm := noLoadRPM * speedRatio * voltageRatio
      .speed (jsRound rpm) (speedRatio * 100) effectiveVoltage backEMFvoltage

/-- The `rpm` field of an `estimateSpeed` result (`none` for the null
signal). -/
def rpmOf : SpeedResult → Option ℤ
  | .notMotor => none
  | .speed rpm _ _ _ => some rpm

end ChargedUP

namespace ChargedUP

/-! ### Claims about the battery chemistry engine and motor estimator -/

/-- C6: for positive reactant masses, `calculateFromMass` selects Zn as
limiting reagent exactly when moles(Zn) = znMass/65.38 is at most
moles(MnO₂)/2 with moles(MnO₂) = mno2Mass/86.936 (so an exact
stoichiometric tie resolves to Zn), otherwise MnO₂ is limiting; the
moles of reaction are the limiting reagent's moles divided by its
stoichiometric coefficient (1 for Zn, 2 for MnO₂). -/
theorem c6_limiting_reagent_rule (znMass mno2Mass voltage electronsPerRxn : ℚ)
    (hzn : 0 < znMass) (hmn : 0 < mno2Mass) :
    ((calculateFromMass znMass mno2Mass voltage electronsPerRxn).limitingReagent = Reagent.Zn
      ↔ znMass / (6538/100) ≤ mno2Mass / (86936/1000) / 2) ∧
    ((calculateFromMass znMass mno2Mass voltage electronsPerRxn).limitingReagent = Reagent.MnO2
      ↔ ¬ znMass / (6538/100) ≤ mno2Mass / (86936/1000) / 2) ∧
    (znMass / (6538/100) = mno2Mass / (86936/1000) / 2 →
      (calculateFromMass znMass mno2Mass voltage electronsPerRxn).limitingReagent = Reagent.Zn) ∧
    ((calculateFromMass znMass mno2Mass voltage electronsPerRxn).limitingReagent = Reagent.Zn →
      (calculateFromMass znMass mno2Mass voltage electronsPerRxn).molesReaction
        = (calculateFromMass znMass mno2Mass voltage electronsPerRxn).molesZn / 1) ∧
    ((calculateFromMass znMass mno2Mass voltage electronsPerRxn).limitingReagent = Reagent.MnO2 →
      (calculateFromMass znMass mno2Mass voltage electronsPerRxn).molesReaction
        = (calculateFromMass znMass mno2Mass voltage electronsPerRxn).molesMnO2 / 2) := by
  have hne : Reagent.Zn ≠ Reagent.MnO2 := by decide
  simp only [calculateFromMass, M_ZN, M_MNO2]
  split_ifs with h
  · simp_all [div_one]
  · have h2 := not_le.mp h
    simp_all [div_one, h2.ne, h2.ne']

/-- Witness for C6 at the documented reference scenario 1 g Zn, 2 g MnO₂
(MnO₂ limiting). -/
theorem c6_limiting_reagent_rule_witness :
    (0:ℚ) < 1 ∧ (0:ℚ) < 2 ∧
    (calculateFromMass 1 2 (3/2) 2).limitingReagent = Reagent.MnO2 :=
  ⟨by norm_num, by norm_num,
    ((c6_limiting_reagent_rule 1 2 (3/2) 2 (by norm_num) (by norm_num)).2.1).mpr (by norm_num)⟩

/-- C7: `calculateFromCapacity` satisfies packVoltage = cellVoltage ×
seriesCount, packCapacityMah = capacityMah × parallelCount, pack charge
= (capacityMah/1000 × 3600) × parallelCount, energy = packVoltage ×
packCharge in Joules and that value over 3600 in Wh; the documented
commercial reference scenario 2000 mAh, 1.5 V, 4s1p yields 6.0 V,
2000 mAh, 43200 J and 12.0 Wh. -/
theorem c7_capacity_pack_formulas
    (capacityMah voltage cellCount seriesCount parallelCount : ℚ) :
    (calculateFromCapacity capacityMah voltage cellCount seriesCount parallelCount).packVoltage
      = voltage * seriesCount ∧
    (calculateFromCapacity capacityMah voltage cellCount seriesCount parallelCount).packCapacityMah
      = capacityMah * parallelCount ∧
    (calculateFromCapacity capacityMah voltage cellCount seriesCount parallelCount).chargeC
      = capacityMah / 1000 * 3600 * parallelCount ∧
    (calculateFromCapacity capacityMah voltage cellCount seriesCount parallelCount).energyJ
      = (calculateFromCapacity capacityMah voltage cellCount seriesCount parallelCount).packVoltage
        * (calculateFromCapacity capacityMah voltage cellCount seriesCount parallelCount).chargeC ∧
    (calculateFromCapacity capacityMah voltage cellCount seriesCount parallelCount).energyWh
      = (calculateFromCapacity capacityMah voltage cellCount seriesCount parallelCount).energyJ / 3600 ∧
    calculateFromCapacity 2000 (3/2) 4 4 1 =
      { cellCapacityMah := 2000, cellVoltage := 3/2, cellCount := 4, seriesCount := 4
        parallelCount := 1, packVoltage := 6, packCapacityMah := 2000, chargeC := 7200
        energyJ := 43200, energyWh := 12 } :=
  ⟨rfl, rfl, rfl, rfl, rfl, by norm_num [calculateFromCapacity, CapacityResult.mk.injEq]⟩

/-- C8 counterexample: calling `calculateFromMass` on a freshly
constructed calculator does change the calculator's stored state — the
call overwrites the `results` field (which `generateWorkSteps` reads),
so the calls are not state-free as claimed. -/
theorem c8_counterexample_state_changes :
    (calculateFromMassM initCalcState 1 2 (3/2) 2).2 ≠ initCalcState := by
  simp [calculateFromMassM, initCalcState, CalcState.mk.injEq]

/-- C8 (amended): the outcome of `calculateFromMass` and
`calculateFromCapacity` — the returned result object and the
overwritten `results` field alike — depends only on the call's
arguments, never on the calculator's prior state; hence calling either
function does not change the result of any later call to either of
them (only the `results` snapshot read by `generateWorkSteps` is
overwritten). -/
theorem c8_calculator_calls_pure (st st' : CalcState)
    (znMass mno2Mass voltage electronsPerRxn : ℚ)
    (capacityMah cellVoltage cellCount seriesCount parallelCount : ℚ) :
    calculateFromMassM st znMass mno2Mass voltage electronsPerRxn
      = calculateFromMassM st' znMass mno2Mass voltage electronsPerRxn ∧
    calculateFromCapacityM st capacityMah cellVoltage cellCount seriesCount parallelCount
      = calculateFromCapacityM st' capacityMah cellVoltage cellCount seriesCount parallelCount :=
  ⟨rfl, rfl⟩

/-- C9 counterexample: at the `small-dc-motor` preset with current 1 A
and supply 6.1 V, the returned rpm is the rounded value 3152, not the
raw product noLoadRPM × speedRatio × voltageRatio = 9455/3. -/
theorem c9_counterexample_rpm_rounded :
    rpmOf (estimateSpeed smallDcMotor 1 (61/10)) = some 3152 ∧
    ((3152 : ℤ) : ℚ) ≠ 6000 * max 0 ((61/10 - 1 * 3) / 6) * min (61/10 / 6) (3/2) := by
  have hX : (6000:ℚ) * max 0 ((61/10 - 1 * 3) / 6) * min (61/10 / 6) (3/2) = 9455/3 := by
    rw [show ((61:ℚ)/10 - 1 * 3) / 6 = 31/60 by norm_num,
        show (61:ℚ)/10/6 = 61/60 by norm_num,
        max_eq_right (by norm_num : (0:ℚ) ≤ 31/60),
        min_eq_left (by norm_num : (61:ℚ)/60 ≤ 3/2)]
    norm_num
  have hfl : jsRound ((9455:ℚ)/3) = 3152 := by
    unfold jsRound
    rw [Int.floor_eq_iff]
    constructor <;> norm_num
  constructor
  · simp only [estimateSpeed, smallDcMotor]
    rw [if_neg (by norm_num : ¬ (6000:ℚ) = 0)]
    simp only [rpmOf, hX, hfl]
  · rw [hX]
    norm_num

/-- C9 (amended): for a preset whose no-load RPM is defined and nonzero,
`estimateSpeed` returns rpm = Math.round(noLoadRPM × speedRatio ×
voltageRatio) with voltageRatio = min(supplyVoltage/ratedVoltage, 1.5)
and speedRatio = max(0, (supplyVoltage − current ×
armatureResistance)/ratedVoltage); for a preset with no defined no-load
RPM it returns the null speed signal rather than a numeric 0. -/
theorem c9_estimate_speed_model (preset : MotorPreset) (current supplyVoltage : ℚ) :
    (preset.noLoadRPM = none →
      estimateSpeed preset current supplyVoltage = SpeedResult.notMotor) ∧
    (∀ n : ℚ, preset.noLoadRPM = some n → n ≠ 0 →
      estimateSpeed preset current supplyVoltage =
        SpeedResult.speed
          (jsRound (n * max 0 ((supplyVoltage - current * preset.armatureR) / preset.ratedVoltage)
            * min (supplyVoltage / preset.ratedVoltage) (3/2)))
          (max 0 ((supplyVoltage - current * preset.armatureR) / preset.ratedVoltage) * 100)
          (supplyVoltage - current * preset.armatureR)
          (current * preset.armatureR)) := by
  constructor
  · intro h
    unfold estimateSpeed
    rw [h]
  · intro n hn hnz
    unfold estimateSpeed
    rw [hn]
    simp only [if_neg hnz]

/-- Witness for C9 at the `small-dc-motor` preset, current 1 A,
supply 6.1 V. -/
theorem c9_estimate_speed_model_witness :
    smallDcMotor.noLoadRPM = some 6000 ∧ (6000:ℚ) ≠ 0 ∧
    estimateSpeed smallDcMotor 1 (61/10) =
      SpeedResult.speed
        (jsRound (6000 * max 0 ((61/10 - 1 * smallDcMotor.armatureR) / smallDcMotor.ratedVoltage)
          * min (61/10 / smallDcMotor.ratedVoltage) (3/2)))
        (max 0 ((61/10 - 1 * smallDcMotor.armatureR) / smallDcMotor.ratedVoltage) * 100)
        (61/10 - 1 * smallDcMotor.armatureR)
        (1 * smallDcMotor.armatureR) :=
  ⟨rfl, by norm_num,
    (c9_estimate_speed_model smallDcMotor 1 (61/10)).2 6000 rfl (by norm_num)⟩

/-- C10: `estimateRuntime` returns the infinite-runtime sentinel when
the current draw is ≤ 0, and otherwise (capacityMah/1000)/currentA
hours. -/
theorem c10_estimate_runtime_model (capacityMah currentA : ℚ) :
    (currentA ≤ 0 → estimateRuntime capacityMah currentA = RuntimeResult.infinite) ∧
    (0 < currentA → estimateRuntime capacityMah currentA =
      RuntimeResult.finite (capacityMah / 1000 / currentA)
        (capacityMah / 1000 / currentA * 60) capacityMah currentA) := by
  constructor
  · intro h
    unfold estimateRuntime
    rw [if_pos h]
  · intro h
    unfold estimateRuntime
    rw [if_neg (not_le.mpr h)]

/-- Witness for C10 at zero current (idle) and at a 2 A draw on a
2000 mAh pack. -/
theorem c10_estimate_runtime_model_witness :
    ((0:ℚ) ≤ 0 ∧ estimateRuntime 2000 0 = RuntimeResult.infinite) ∧
    ((0:ℚ) < 2 ∧ estimateRuntime 2000 2 = RuntimeResult.finite 1 60 2000 2) :=
  ⟨⟨by norm_num, (c10_estimate_runtime_model 2000 0).1 (by norm_num)⟩,
   ⟨by norm_num, ((c10_estimate_runtime_model 2000 2).2 (by norm_num)).trans
      (by norm_num [RuntimeResult.finite.injEq])⟩⟩

end ChargedUP

namespace ChargedUP

/-! ### Structural lemmas about one simulation tick -/

lemma updateBattery_velocity (p : SimParams) (s : SimState) (dt : ℚ) :
    (updateBattery p s dt).velocity = s.velocity := by
  unfold updateBattery; split <;> rfl

lemma updateBattery_position (p : SimParams) (s : SimState) (dt : ℚ) :
    (updateBattery p s dt).position = s.position := by
  unfold updateBattery; split <;> rfl

lemma updateBattery_lapCount (p : SimParams) (s : SimState) (dt : ℚ) :
    (updateBattery p s dt).lapCount = s.lapCount := by
  unfold updateBattery; split <;> rfl

lemma updateBattery_lapTime (p : SimParams) (s : SimState) (dt : ℚ) :
    (updateBattery p s dt).lapTime = s.lapTime := by
  unfold updateBattery; split <;> rfl

lemma updateBattery_bestLapTime (p : SimParams) (s : SimState) (dt : ℚ) :
    (updateBattery p s dt).bestLapTime = s.bestLapTime := by
  unfold updateBattery; split <;> rfl

lemma effParams_batteryVoltage (sim : Sim) :
    (effParams sim).batteryVoltage = sim.params.batteryVoltage := by
  unfold effParams; split <;> rfl

lemma effParams_batteryCurrent (sim : Sim) :
    (effParams sim).batteryCurrent = sim.params.batteryCurrent := by
  unfold effParams; split <;> rfl

lemma effParams_batteryCapacity (sim : Sim) :
    (effParams sim).batteryCapacity = sim.params.batteryCapacity := by
  unfold effParams; split <;> rfl

lemma effParams_fullCapacity (sim : Sim) :
    fullCapacityJoules (effParams sim) = fullCapacityJoules sim.params := by
  unfold effParams fullCapacityJoules; split <;> rfl

lemma updatePhysics_params (sim : Sim) (dt : ℚ) :
    (updatePhysics sim dt).params = effParams sim := rfl

lemma updatePhysics_trackLength (sim : Sim) (dt : ℚ) :
    (updatePhysics sim dt).trackLength = sim.trackLength := rfl

lemma updatePhysics_state_velocity (sim : Sim) (dt : ℚ) :
    (updatePhysics sim dt).state.velocity = tickVelocity sim dt := by
  unfold updatePhysics tickVelocity
  simp only [updateBattery_velocity]
  split_ifs <;> rfl

lemma updatePhysics_state_position (sim : Sim) (dt : ℚ) :
    (updatePhysics sim dt).state.position =
      if tickRawPosition sim dt ≥ sim.trackLength
      then tickRawPosition sim dt - sim.trackLength
      else tickRawPosition sim dt := by
  unfold updatePhysics tickRawPosition tickVelocity
  simp only [updateBattery_position]
  split_ifs <;> rfl

lemma updatePhysics_state_lapCount (sim : Sim) (dt : ℚ) :
    (updatePhysics sim dt).state.lapCount =
      if tickRawPosition sim dt ≥ sim.trackLength
      then sim.state.lapCount + 1 else sim.state.lapCount := by
  unfold updatePhysics tickRawPosition tickVelocity
  simp only [updateBattery_lapCount]
  split_ifs <;> rfl

lemma updatePhysics_state_bestLapTime (sim : Sim) (dt : ℚ) :
    (updatePhysics sim dt).state.bestLapTime =
      if tickRawPosition sim dt ≥ sim.trackLength then
        (if lapQualifies sim.state.lapTime sim.state.bestLapTime
         then some sim.state.lapTime else sim.state.bestLapTime)
      else sim.state.bestLapTime := by
  unfold updatePhysics tickRawPosition tickVelocity
  simp only [updateBattery_bestLapTime]
  split_ifs <;> rfl

lemma updatePhysics_state_lapTime (sim : Sim) (dt : ℚ) :
    (updatePhysics sim dt).state.lapTime =
      (if tickRawPosition sim dt ≥ sim.trackLength then 0 else sim.state.lapTime) + dt := by
  unfold updatePhysics tickRawPosition tickVelocity
  simp only [updateBattery_lapTime]
  split_ifs <;> rfl

lemma updatePhysics_state_totalEnergy (sim : Sim) (dt : ℚ) :
    (updatePhysics sim dt).state.totalEnergy =
      if (effParams sim).throttle > 0
      then sim.state.totalEnergy +
        (effParams sim).batteryVoltage * (effParams sim).batteryCurrent
          * (effParams sim).throttle * dt
      else sim.state.totalEnergy := by
  unfold updatePhysics updateBattery
  simp only [ge_iff_le]
  split_ifs <;> rfl

lemma updatePhysics_state_batteryCharge (sim : Sim) (dt : ℚ) :
    (updatePhysics sim dt).state.batteryCharge =
      if (effParams sim).throttle > 0
      then max 0 (100 -
        (sim.state.totalEnergy +
          (effParams sim).batteryVoltage * (effParams sim).batteryCurrent
            * (effParams sim).throttle * dt)
          / fullCapacityJoules (effParams sim) * 100)
      else sim.state.batteryCharge := by
  unfold updatePhysics updateBattery
  simp only [ge_iff_le]
  split_ifs <;> rfl

end ChargedUP

namespace ChargedUP

/-- C1 counterexample: with the battery exhausted and a configured
throttle of 1/2, the tick overwrites the configured throttle stored in
the parameters — it is not left unchanged as claimed. -/
theorem c1_counterexample_throttle_overwritten :
    c1Sim.state.batteryCharge ≤ 0 ∧
    (updatePhysics c1Sim (1/100)).params.throttle ≠ c1Sim.params.throttle := by
  constructor
  · norm_num [c1Sim, initialState]
  · rw [updatePhysics_params]
    unfold effParams
    rw [if_pos (by norm_num [c1Sim, initialState] : c1Sim.state.batteryCharge ≤ 0)]
    norm_num [c1Sim, defaultParams]

/-- C1 (amended): when batteryCharge ≤ 0 at entry, the tick writes the
forcing through to the configuration: it sets
`SimulationParameters.throttle` to 0 (leaving every other parameter
field unchanged), and the whole tick — its force and battery
computations included — behaves exactly as a tick with the configured
throttle already 0. -/
theorem c1_battery_exhaustion_forces_throttle (sim : Sim) (dt : ℚ)
    (h : sim.state.batteryCharge ≤ 0) :
    (updatePhysics sim dt).params = { sim.params with throttle := 0 } ∧
    updatePhysics sim dt =
      updatePhysics { sim with params := { sim.params with throttle := 0 } } dt := by
  have heff : effParams sim = { sim.params with throttle := 0 } := by
    unfold effParams
    rw [if_pos h]
  have heff2 : effParams { sim with params := { sim.params with throttle := 0 } } =
      { sim.params with throttle := 0 } := by
    unfold effParams
    rw [if_pos h]
  constructor
  · rw [updatePhysics_params, heff]
  · unfold updatePhysics
    simp only [heff, heff2]

/-- Witness for C1: the exhausted-battery simulator `c1Sim` at
dt = 0.01 s. -/
theorem c1_battery_exhaustion_forces_throttle_witness :
    c1Sim.state.batteryCharge ≤ 0 ∧
    (updatePhysics c1Sim (1/100)).params = { c1Sim.params with throttle := 0 } :=
  ⟨by norm_num [c1Sim, initialState],
    (c1_battery_exhaustion_forces_throttle c1Sim (1/100)
      (by norm_num [c1Sim, initialState])).1⟩

/-- C2 counterexample: from the (reachable) initial state with full
throttle, a 100 N·m torque, no friction and no drag, a single 0.1 s
tick moves the car 70 m; the single lap-boundary subtraction leaves
position = 50 ≥ trackLength = 20, violating the claimed invariant. -/
theorem c2_counterexample_position_overrun :
    0 ≤ c2BadSim.state.position ∧ c2BadSim.state.position < c2BadSim.trackLength ∧
    0 < (1/10 : ℚ) ∧ (1/10 : ℚ) ≤ 1/10 ∧
    ¬ (updatePhysics c2BadSim (1/10)).state.position < c2BadSim.trackLength := by
  refine ⟨by norm_num [c2BadSim, initialState], by norm_num [c2BadSim, initialState],
    by norm_num, by norm_num, ?_⟩
  rw [updatePhysics_state_position]
  have hraw : tickRawPosition c2BadSim (1/10) = 70 := by
    norm_num [tickRawPosition, tickVelocity, effParams, calculateAcceleration,
      calculateMotorForce, calculateFriction, calculateAirResistance,
      c2BadSim, defaultParams, initialState, gravity, max_def]
  rw [hraw]
  norm_num [c2BadSim]

/-- C2 (amended): if 0 ≤ position < trackLength at entry and the
distance advanced during the tick (the tick's updated velocity times
dt) is less than trackLength, then after the tick — including its
lap-boundary correction — 0 ≤ position < trackLength again, for any
parameter values and any dt with 0 < dt ≤ 0.1. -/
theorem c2_position_invariant (sim : Sim) (dt : ℚ)
    (hpos0 : 0 ≤ sim.state.position) (hposL : sim.state.position < sim.trackLength)
    (hdt0 : 0 < dt) (hdtc : dt ≤ 1/10)
    (hadv : (updatePhysics sim dt).state.velocity * dt < sim.trackLength) :
    0 ≤ (updatePhysics sim dt).state.position ∧
    (updatePhysics sim dt).state.position < sim.trackLength := by
  rw [updatePhysics_state_velocity] at hadv
  rw [updatePhysics_state_position]
  have hv : 0 ≤ tickVelocity sim dt := le_max_left 0 _
  have hvdt : 0 ≤ tickVelocity sim dt * dt := mul_nonneg hv hdt0.le
  have hraw0 : 0 ≤ tickRawPosition sim dt := by
    unfold tickRawPosition
    exact add_nonneg hpos0 hvdt
  have hraw2 : tickRawPosition sim dt < sim.trackLength + sim.trackLength := by
    unfold tickRawPosition
    linarith
  split_ifs with hw
  · constructor
    · linarith
    · linarith
  · exact ⟨hraw0, not_le.mp hw⟩

/-- Witness for C2 at the default simulator `c2Sim` with dt = 0.01 s. -/
theorem c2_position_invariant_witness :
    (0 ≤ c2Sim.state.position ∧ c2Sim.state.position < c2Sim.trackLength ∧
     0 < (1/100 : ℚ) ∧ (1/100 : ℚ) ≤ 1/10 ∧
     (updatePhysics c2Sim (1/100)).state.velocity * (1/100) < c2Sim.trackLength) ∧
    (0 ≤ (updatePhysics c2Sim (1/100)).state.position ∧
     (updatePhysics c2Sim (1/100)).state.position < c2Sim.trackLength) := by
  have hadv : (updatePhysics c2Sim (1/100)).state.velocity * (1/100) < c2Sim.trackLength := by
    rw [updatePhysics_state_velocity]
    norm_num [tickVelocity, effParams, calculateAcceleration, calculateMotorForce,
      calculateFriction, calculateAirResistance, c2Sim, defaultParams, initialState,
      gravity, max_def]
  exact ⟨⟨by norm_num [c2Sim, initialState], by norm_num [c2Sim, initialState],
      by norm_num, by norm_num, hadv⟩,
    c2_position_invariant c2Sim (1/100) (by norm_num [c2Sim, initialState])
      (by norm_num [c2Sim, initialState]) (by norm_num) (by norm_num) hadv⟩

end ChargedUP

namespace ChargedUP

/-- C3: in a tick whose updated position reaches or exceeds the track
length, the tick subtracts the track length once (preserving the
overshoot), increments the lap counter by exactly 1, updates the best
lap time exactly when the just-finished lap time qualifies (positive
and below the previous best, where the initial best `Infinity` is beaten
by any positive lap time), and leaves the lap clock equal to the tick's
dt. -/
theorem c3_lap_completion (sim : Sim) (dt : ℚ)
    (h : tickRawPosition sim dt ≥ sim.trackLength) :
    (updatePhysics sim dt).state.position = tickRawPosition sim dt - sim.trackLength ∧
    (updatePhysics sim dt).state.lapCount = sim.state.lapCount + 1 ∧
    (updatePhysics sim dt).state.bestLapTime =
      (if lapQualifies sim.state.lapTime sim.state.bestLapTime
       then some sim.state.lapTime else sim.state.bestLapTime) ∧
    (updatePhysics sim dt).state.lapTime = dt ∧
    (∀ t : ℚ, ∀ best : Option ℚ,
      (lapQualifies t best = true ↔ 0 < t ∧ ∀ b : ℚ, best = some b → t < b)) := by
  refine ⟨?_, ?_, ?_, ?_, ?_⟩
  · rw [updatePhysics_state_position, if_pos h]
  · rw [updatePhysics_state_lapCount, if_pos h]
  · rw [updatePhysics_state_bestLapTime, if_pos h]
  · rw [updatePhysics_state_lapTime, if_pos h, zero_add]
  · intro t best
    cases best with
    | none => simp [lapQualifies, ltInfinity]
    | some b => simp [lapQualifies, ltInfinity]

/-- Witness for C3: the lap-wrap scenario of the spec — position
trackLength − 0.001, one 0.01 s tick advancing 0.002 m: position wraps
to 0.001 (not 0), the lap counter goes to 1, the 5 s lap time becomes
the best, and the lap clock restarts at dt. -/
theorem c3_lap_completion_witness :
    tickRawPosition c3Sim (1/100) ≥ c3Sim.trackLength ∧
    (updatePhysics c3Sim (1/100)).state.position = 1/1000 ∧
    (updatePhysics c3Sim (1/100)).state.lapCount = 1 ∧
    (updatePhysics c3Sim (1/100)).state.bestLapTime = some 5 ∧
    (updatePhysics c3Sim (1/100)).state.lapTime = 1/100 := by
  have hraw : tickRawPosition c3Sim (1/100) = 20001/1000 := by
    norm_num [tickRawPosition, tickVelocity, effParams, calculateAcceleration,
      calculateMotorForce, calculateFriction, calculateAirResistance,
      c3Sim, defaultParams, initialState, gravity, max_def]
  have h : tickRawPosition c3Sim (1/100) ≥ c3Sim.trackLength := by
    rw [hraw]
    norm_num [c3Sim]
  obtain ⟨h1, h2, h3, h4, _⟩ := c3_lap_completion c3Sim (1/100) h
  refine ⟨h, ?_, ?_, ?_, h4⟩
  · rw [h1, hraw]
    norm_num [c3Sim]
  · rw [h2]
    norm_num [c3Sim, initialState]
  · rw [h3]
    norm_num [c3Sim, initialState, lapQualifies, ltInfinity]

/-- C4: a tick keeps velocity and battery charge non-negative: the
velocity update clamps at 0 however negative the net force, and the
charge is either recomputed through a max-with-0 or left unchanged. -/
theorem c4_velocity_charge_nonneg (sim : Sim) (dt : ℚ)
    (hv : 0 ≤ sim.state.velocity) (hb : 0 ≤ sim.state.batteryCharge) (hdt : 0 < dt) :
    0 ≤ (updatePhysics sim dt).state.velocity ∧
    0 ≤ (updatePhysics sim dt).state.batteryCharge := by
  refine ⟨?_, ?_⟩
  · rw [updatePhysics_state_velocity]
    exact le_max_left 0 _
  · rw [updatePhysics_state_batteryCharge]
    split_ifs with h
    · exact le_max_left 0 _
    · exact hb

/-- Witness for C4 at the default simulator with dt = 0.01 s. -/
theorem c4_velocity_charge_nonneg_witness :
    (0 ≤ c2Sim.state.velocity ∧ 0 ≤ c2Sim.state.batteryCharge ∧ 0 < (1/100 : ℚ)) ∧
    (0 ≤ (updatePhysics c2Sim (1/100)).state.velocity ∧
     0 ≤ (updatePhysics c2Sim (1/100)).state.batteryCharge) :=
  ⟨⟨by norm_num [c2Sim, initialState], by norm_num [c2Sim, initialState], by norm_num⟩,
   c4_velocity_charge_nonneg c2Sim (1/100) (by norm_num [c2Sim, initialState])
     (by norm_num [c2Sim, initialState]) (by norm_num)⟩

lemma updatePhysics_params_batteryVoltage (sim : Sim) (dt : ℚ) :
    (updatePhysics sim dt).params.batteryVoltage = sim.params.batteryVoltage := by
  rw [updatePhysics_params, effParams_batteryVoltage]

lemma updatePhysics_params_batteryCurrent (sim : Sim) (dt : ℚ) :
    (updatePhysics sim dt).params.batteryCurrent = sim.params.batteryCurrent := by
  rw [updatePhysics_params, effParams_batteryCurrent]

lemma updatePhysics_params_batteryCapacity (sim : Sim) (dt : ℚ) :
    (updatePhysics sim dt).params.batteryCapacity = sim.params.batteryCapacity := by
  rw [updatePhysics_params, effParams_batteryCapacity]

lemma tick_totalEnergy_mono (sim : Sim) (dt : ℚ)
    (hV : 0 ≤ sim.params.batteryVoltage) (hI : 0 ≤ sim.params.batteryCurrent)
    (hdt : 0 ≤ dt) :
    sim.state.totalEnergy ≤ (updatePhysics sim dt).state.totalEnergy := by
  rw [updatePhysics_state_totalEnergy]
  split_ifs with h
  · have h0 : 0 ≤ (effParams sim).batteryVoltage * (effParams sim).batteryCurrent
        * (effParams sim).throttle * dt :=
      mul_nonneg (mul_nonneg (mul_nonneg
        (by rw [effParams_batteryVoltage]; exact hV)
        (by rw [effParams_batteryCurrent]; exact hI)) h.le) hdt
    linarith
  · exact le_rfl

lemma tick_charge_mono (sim : Sim) (dt : ℚ)
    (hV : 0 < sim.params.batteryVoltage) (hI : 0 < sim.params.batteryCurrent)
    (hC : 0 < sim.params.batteryCapacity) (hdt : 0 < dt) (hinv : ChargeInv sim) :
    (updatePhysics sim dt).state.batteryCharge ≤ sim.state.batteryCharge ∧
    ChargeInv (updatePhysics sim dt) := by
  have hCap : 0 < fullCapacityJoules sim.params := by
    unfold fullCapacityJoules
    exact mul_pos hV (mul_pos hC (by norm_num))
  constructor
  · rw [updatePhysics_state_batteryCharge]
    split_ifs with h
    · rw [hinv]
      apply max_le_max le_rfl
      rw [effParams_fullCapacity]
      have h0 : 0 ≤ (effParams sim).batteryVoltage * (effParams sim).batteryCurrent
          * (effParams sim).throttle * dt :=
        mul_nonneg (mul_nonneg (mul_nonneg
          (by rw [effParams_batteryVoltage]; exact hV.le)
          (by rw [effParams_batteryCurrent]; exact hI.le)) h.le) hdt.le
      have hdiv : sim.state.totalEnergy / fullCapacityJoules sim.params ≤
          (sim.state.totalEnergy + (effParams sim).batteryVoltage
            * (effParams sim).batteryCurrent * (effParams sim).throttle * dt)
            / fullCapacityJoules sim.params :=
        (div_le_div_iff_of_pos_right hCap).mpr (by linarith)
      have hmul := mul_le_mul_of_nonneg_right hdiv (by norm_num : (0:ℚ) ≤ 100)
      linarith
    · exact le_rfl
  · unfold ChargeInv
    rw [updatePhysics_state_batteryCharge, updatePhysics_state_totalEnergy,
      updatePhysics_params, effParams_fullCapacity]
    split_ifs with h
    · rfl
    · exact hinv

lemma runTicks_energy_charge_aux (dts : List ℚ) :
    ∀ sim : Sim, 0 < sim.params.batteryVoltage → 0 < sim.params.batteryCurrent →
      0 < sim.params.batteryCapacity → (∀ dt ∈ dts, 0 < dt) → ChargeInv sim →
      sim.state.totalEnergy ≤ (runTicks sim dts).state.totalEnergy ∧
      (runTicks sim dts).state.batteryCharge ≤ sim.state.batteryCharge ∧
      ChargeInv (runTicks sim dts) := by
  induction dts with
  | nil =>
    intro sim hV hI hC hdts hinv
    exact ⟨le_rfl, le_rfl, hinv⟩
  | cons dt rest ih =>
    intro sim hV hI hC hdts hinv
    have hdt : 0 < dt := hdts dt (List.mem_cons_self dt rest)
    have hrest : ∀ d ∈ rest, 0 < d := fun d hd => hdts d (List.mem_cons_of_mem dt hd)
    have hstep := tick_charge_mono sim dt hV hI hC hdt hinv
    have hE := tick_totalEnergy_mono sim dt hV.le hI.le hdt.le
    have hV2 : 0 < (updatePhysics sim dt).params.batteryVoltage := by
      rw [updatePhysics_params_batteryVoltage]; exact hV
    have hI2 : 0 < (updatePhysics sim dt).params.batteryCurrent := by
      rw [updatePhysics_params_batteryCurrent]; exact hI
    have hC2 : 0 < (updatePhysics sim dt).params.batteryCapacity := by
      rw [updatePhysics_params_batteryCapacity]; exact hC
    have hrec := ih (updatePhysics sim dt) hV2 hI2 hC2 hrest hstep.2
    have hrun : runTicks sim (dt :: rest) = runTicks (updatePhysics sim dt) rest := rfl
    rw [hrun]
    exact ⟨le_trans hE hrec.1, le_trans hrec.2.1 hstep.1, hrec.2.2⟩

/-- C5: over any sequence of ticks with positive dts, positive battery
voltage, current and capacity, and the charge/energy coupling that the
fresh (or reset) simulator satisfies, the accumulated energy is
non-decreasing and the battery charge is non-increasing — and the
coupling is preserved, so the monotonicity holds between every two
points of the tick sequence. -/
theorem c5_energy_charge_monotone (sim : Sim) (dts : List ℚ)
    (hV : 0 < sim.params.batteryVoltage) (hI : 0 < sim.params.batteryCurrent)
    (hC : 0 < sim.params.batteryCapacity) (hdts : ∀ dt ∈ dts, 0 < dt)
    (hinv : ChargeInv sim) :
    sim.state.totalEnergy ≤ (runTicks sim dts).state.totalEnergy ∧
    (runTicks sim dts).state.batteryCharge ≤ sim.state.batteryCharge ∧
    ChargeInv (runTicks sim dts) :=
  runTicks_energy_charge_aux dts sim hV hI hC hdts hinv

/-- Witness for C5: the fresh full-throttle simulator `c5Sim` over two
0.01 s ticks. -/
theorem c5_energy_charge_monotone_witness :
    (0 < c5Sim.params.batteryVoltage ∧ 0 < c5Sim.params.batteryCurrent ∧
     0 < c5Sim.params.batteryCapacity ∧ (∀ dt ∈ [(1:ℚ)/100, 1/100], 0 < dt) ∧
     ChargeInv c5Sim) ∧
    (c5Sim.state.totalEnergy ≤ (runTicks c5Sim [1/100, 1/100]).state.totalEnergy ∧
     (runTicks c5Sim [1/100, 1/100]).state.batteryCharge ≤ c5Sim.state.batteryCharge ∧
     ChargeInv (runTicks c5Sim [1/100, 1/100])) := by
  have hdts : ∀ dt ∈ [(1:ℚ)/100, 1/100], 0 < dt := by
    intro d hd
    rcases List.mem_cons.mp hd with rfl | hd2
    · norm_num
    · rw [List.mem_singleton.mp hd2]
      norm_num
  have hinv : ChargeInv c5Sim := by
    norm_num [ChargeInv, c5Sim, initialState, defaultParams, fullCapacityJoules, max_def]
  exact ⟨⟨by norm_num [c5Sim, defaultParams], by norm_num [c5Sim, defaultParams],
      by norm_num [c5Sim, defaultParams], hdts, hinv⟩,
    c5_energy_charge_monotone c5Sim [1/100, 1/100] (by norm_num [c5Sim, defaultParams])
      (by norm_num [c5Sim, defaultParams]) (by norm_num [c5Sim, defaultParams]) hdts hinv⟩

end ChargedUP
